import Mathlib

/-!
Shallow embedding of the tainiex-designer schema-validation core
(`src/models/Column.ts`, `src/models/Table.ts`, `src/models/Relationship.ts`,
`src/models/Schema.ts`, `src/services/ValidationEngine.ts`) together with
theorems checking the specification's claims about it.

Modelling conventions:
- TypeScript string maps (`Map<string, Table>`, `Map<string, Relationship>`)
  are modelled as insertion-ordered association lists keyed by the `id`
  field; `Map.set` / `Map.delete` / `Map.get` become `setByKey` /
  `eraseByKey` / `List.find?`.  The JS `Map` cannot hold two entries with
  the same key, so theorems that depend on that invariant carry an explicit
  `Nodup` hypothesis on the key list.
- JS `Set<string>` objects (seen-names, visited, recursion stack,
  connected-tables) become `List String` used only through `contains`.
- JS string truthiness (`!s`) on a string is `s == ""`.
- Canvas positions are irrelevant to validation; their numeric type is
  modelled as `Int`.
-/

namespace DbDesigner

/-- 2D position (`Point` from `utils/types.ts`). -/
structure Point where
  x : Int
  y : Int
deriving DecidableEq, Repr

/-- `Column` from `src/models/Column.ts`. -/
structure Column where
  id : String
  name : String
  type : String
  nullable : Bool := true
  primaryKey : Bool := false
  foreignKey : Bool := false
  unique : Bool := false
  autoIncrement : Bool := false
  defaultValue : Option String := none
  comment : Option String := none
deriving DecidableEq, Repr

/-- `Index` from `src/models/Table.ts`. -/
structure Index where
  name : String
  columns : List String
  unique : Bool
deriving DecidableEq, Repr

/-- `Constraint` from `src/models/Table.ts` (`type` is one of the three literal strings). -/
structure Constraint where
  type : String
  definition : String
deriving DecidableEq, Repr

/-- `Table` from `src/models/Table.ts`. -/
structure Table where
  id : String
  name : String
  position : Point
  columns : List Column := []
  indexes : List Index := []
  constraints : List Constraint := []
  comment : Option String := none
deriving DecidableEq, Repr

/-- `Table.getColumn`. -/
def Table.getColumn (t : Table) (columnId : String) : Option Column :=
  t.columns.find? (fun c => c.id == columnId)

/-- `Table.getPrimaryKeys`. -/
def Table.getPrimaryKeys (t : Table) : List Column :=
  t.columns.filter (fun c => c.primaryKey)

/-- `RelationType` from `src/models/Relationship.ts`. -/
inductive RelationType where
  | oneToOne
  | oneToMany
  | manyToMany
deriving DecidableEq, Repr

/-- `ReferentialAction` from `src/models/Relationship.ts`. -/
inductive ReferentialAction where
  | cascade
  | setNull
  | restrict
  | noAction
deriving DecidableEq, Repr

/-- `Relationship` from `src/models/Relationship.ts`. -/
structure Relationship where
  id : String
  name : Option String := none
  type : RelationType
  sourceTableId : String
  targetTableId : String
  sourceColumnId : String
  targetColumnId : String
  onDelete : Option ReferentialAction := none
  onUpdate : Option ReferentialAction := none
  comment : Option String := none
deriving DecidableEq, Repr

/-- `ValidationError` from `src/models/Relationship.ts`. -/
structure ValidationError where
  code : String
  message : String
  field : Option String := none
  suggestion : Option String := none
deriving DecidableEq, Repr

/-- `ValidationWarning` from `src/models/Relationship.ts`. -/
structure ValidationWarning where
  code : String
  message : String
  field : Option String := none
  suggestion : Option String := none
deriving DecidableEq, Repr

/-- `ValidationResult` from `src/models/Relationship.ts`. -/
structure ValidationResult where
  valid : Bool
  errors : List ValidationError
  warnings : List ValidationWarning
deriving DecidableEq, Repr

/-- `Map.set` on an association list keyed by `key`: replace in place if the
key is present, otherwise append (JS `Map` insertion-order semantics). -/
def setByKey {α : Type} (key : α → String) (l : List α) (a : α) : List α :=
  if l.any (fun x => key x == key a) then
    l.map (fun x => if key x == key a then a else x)
  else
    l ++ [a]

/-- `Map.delete` on an association list keyed by `key`: remove the (first)
entry carrying the key. -/
def eraseByKey {α : Type} (key : α → String) : List α → String → List α
  | [], _ => []
  | x :: xs, k => if key x == k then xs else x :: eraseByKey key xs k

/-- `Schema` from `src/models/Schema.ts`. `metadata` is an opaque record,
modelled as an association list of strings. -/
structure Schema where
  name : String := "Untitled Schema"
  tables : List Table := []
  relationships : List Relationship := []
  metadata : List (String × String) := []
deriving DecidableEq, Repr

/-- `Schema.addTable` (`Map.set` keyed by the table id). -/
def Schema.addTable (s : Schema) (t : Table) : Schema :=
  { s with tables := setByKey Table.id s.tables t }

/-- `Schema.getTable` (`Map.get`). -/
def Schema.getTable (s : Schema) (id : String) : Option Table :=
  s.tables.find? (fun t => t.id == id)

/-- `Schema.addRelationship`. -/
def Schema.addRelationship (s : Schema) (r : Relationship) : Schema :=
  { s with relationships := setByKey Relationship.id s.relationships r }

/-- `Schema.getRelationship`. -/
def Schema.getRelationship (s : Schema) (id : String) : Option Relationship :=
  s.relationships.find? (fun r => r.id == id)

/-- `Schema.removeRelationship`. -/
def Schema.removeRelationship (s : Schema) (id : String) : Schema :=
  { s with relationships := eraseByKey Relationship.id s.relationships id }

/-- `Schema.removeTable`: deletes the table entry, then collects the ids of
all relationships whose source or target is that table and deletes each. -/
def Schema.removeTable (s : Schema) (id : String) : Schema :=
  let tables' := eraseByKey Table.id s.tables id
  let toDelete :=
    (s.relationships.filter
      (fun r => r.sourceTableId == id || r.targetTableId == id)).map Relationship.id
  let rels' := toDelete.foldl (fun acc relId => eraseByKey Relationship.id acc relId)
    s.relationships
  { s with tables := tables', relationships := rels' }

/-! The JS string primitives `toLowerCase`, `toUpperCase`, `trim` and
`split('(')[0]` are modelled by structurally recursive functions on the
character list (the core `String` versions recurse on byte positions and do
not reduce definitionally).  Whitespace is the ASCII whitespace that appears
in practice; claims do not depend on exotic whitespace. -/

/-- JS `toLowerCase` (character-wise). -/
def toLowerStr (s : String) : String :=
  String.mk (s.data.map Char.toLower)

/-- JS `toUpperCase` (character-wise). -/
def toUpperStr (s : String) : String :=
  String.mk (s.data.map Char.toUpper)

/-- ASCII whitespace. -/
def isSpaceChar (c : Char) : Bool :=
  c == ' ' || c == '\t' || c == '\n' || c == '\r'

/-- JS `trim`. -/
def trimStr (s : String) : String :=
  String.mk (((s.data.dropWhile isSpaceChar).reverse.dropWhile isSpaceChar).reverse)

/-- JS `s.split(c)[0]`: the prefix before the first occurrence of `c`. -/
def beforeChar (c : Char) (s : String) : String :=
  String.mk (s.data.takeWhile (fun x => x != c))

/-- Type-string normalization shared by `Relationship.areTypesCompatible` and
`ValidationEngine.isNumericType`: substring before the first `(`, trimmed,
upper-cased. -/
def normalizeType (t : String) : String :=
  toUpperStr (trimStr (beforeChar '(' t))

/-- The numeric compatibility group. -/
def numericTypes : List String :=
  ["INT", "INTEGER", "BIGINT", "SMALLINT", "TINYINT",
   "DECIMAL", "NUMERIC", "FLOAT", "DOUBLE", "NUMBER"]

/-- The string compatibility group. -/
def stringTypes : List String :=
  ["VARCHAR", "CHAR", "TEXT", "STRING", "CLOB"]

/-- The date/time compatibility group. -/
def dateTypes : List String :=
  ["DATE", "DATETIME", "TIMESTAMP", "TIME"]

/-- `Relationship.areTypesCompatible` from `src/models/Relationship.ts`. -/
def Relationship.areTypesCompatible (type1 type2 : String) : Bool :=
  let t1 := normalizeType type1
  let t2 := normalizeType type2
  if t1 == t2 then true
  else if numericTypes.contains t1 && numericTypes.contains t2 then true
  else if stringTypes.contains t1 && stringTypes.contains t2 then true
  else if dateTypes.contains t1 && dateTypes.contains t2 then true
  else false

/-- Error pushed by `Relationship.validate` when the source table is missing. -/
def sourceTableNotFoundError (r : Relationship) : ValidationError :=
  { code := "SOURCE_TABLE_NOT_FOUND"
  , message := "Source table with ID '" ++ r.sourceTableId ++ "' not found"
  , field := some "sourceTableId"
  , suggestion := some "Remove this relationship or restore the source table" }

/-- Error pushed by `Relationship.validate` when the target table is missing. -/
def targetTableNotFoundError (r : Relationship) : ValidationError :=
  { code := "TARGET_TABLE_NOT_FOUND"
  , message := "Target table with ID '" ++ r.targetTableId ++ "' not found"
  , field := some "targetTableId"
  , suggestion := some "Remove this relationship or restore the target table" }

/-- Error pushed by `Relationship.validate` when the source column is missing. -/
def sourceColumnNotFoundError (r : Relationship) (sourceTable : Table) : ValidationError :=
  { code := "SOURCE_COLUMN_NOT_FOUND"
  , message := "Source column with ID '" ++ r.sourceColumnId ++ "' not found in table '"
      ++ sourceTable.name ++ "'"
  , field := some "sourceColumnId"
  , suggestion := some "Select a valid column from the source table" }

/-- Error pushed by `Relationship.validate` when the target column is missing. -/
def targetColumnNotFoundError (r : Relationship) (targetTable : Table) : ValidationError :=
  { code := "TARGET_COLUMN_NOT_FOUND"
  , message := "Target column with ID '" ++ r.targetColumnId ++ "' not found in table '"
      ++ targetTable.name ++ "'"
  , field := some "targetColumnId"
  , suggestion := some "Select a valid column from the target table" }

/-- Error pushed by `Relationship.validate` on incompatible column types. -/
def typeMismatchError (sourceColumn targetColumn : Column) : ValidationError :=
  { code := "TYPE_MISMATCH"
  , message := "Column types are incompatible: '" ++ sourceColumn.type ++ "' and '"
      ++ targetColumn.type ++ "'"
  , field := some "sourceColumnId"
  , suggestion := some "Ensure both columns have compatible data types" }

/-- Warning pushed by `Relationship.validate` when the target column is neither
a primary key nor unique. -/
def targetNotPrimaryKeyWarning (targetColumn : Column) : ValidationWarning :=
  { code := "TARGET_NOT_PRIMARY_KEY"
  , message := "Target column '" ++ targetColumn.name ++ "' is not a primary key or unique"
  , field := some "targetColumnId"
  , suggestion := some "Consider making the target column a primary key or unique" }

/-- Warning pushed by `Relationship.validate` when the source column is neither
a primary key nor unique. -/
def sourceNoIndexWarning (sourceColumn : Column) : ValidationWarning :=
  { code := "SOURCE_NO_INDEX"
  , message := "Source column '" ++ sourceColumn.name
      ++ "' should have an index for better performance"
  , field := some "sourceColumnId"
  , suggestion := some "Add an index on the source column" }

/-- Warning pushed by `Relationship.validate` when the foreign-key column name
differs from `lowercase(targetTableName) + "_id"`. -/
def namingConventionWarning (sourceColumn : Column) (targetTable : Table) : ValidationWarning :=
  { code := "NAMING_CONVENTION"
  , message := "Foreign key column '" ++ sourceColumn.name
      ++ "' doesn't follow naming convention"
  , field := some "sourceColumnId"
  , suggestion := some ("Consider renaming to '" ++ (toLowerStr targetTable.name ++ "_id") ++ "'") }

/-- `Relationship.validate` from `src/models/Relationship.ts`.  The TS code
pushes errors into one array and returns early; each early-return path is a
separate match arm here, its error list written in push order (source before
target). -/
def Relationship.validate (r : Relationship) (s : Schema) : ValidationResult :=
  match s.getTable r.sourceTableId, s.getTable r.targetTableId with
  | none, none =>
      { valid := false
        errors := [sourceTableNotFoundError r, targetTableNotFoundError r]
        warnings := [] }
  | none, some _ =>
      { valid := false, errors := [sourceTableNotFoundError r], warnings := [] }
  | some _, none =>
      { valid := false, errors := [targetTableNotFoundError r], warnings := [] }
  | some sourceTable, some targetTable =>
    match sourceTable.getColumn r.sourceColumnId, targetTable.getColumn r.targetColumnId with
    | none, none =>
        { valid := false
          errors := [sourceColumnNotFoundError r sourceTable,
                     targetColumnNotFoundError r targetTable]
          warnings := [] }
    | none, some _ =>
        { valid := false
          errors := [sourceColumnNotFoundError r sourceTable], warnings := [] }
    | some _, none =>
        { valid := false
          errors := [targetColumnNotFoundError r targetTable], warnings := [] }
    | some sourceColumn, some targetColumn =>
        let errors :=
          if !(Relationship.areTypesCompatible sourceColumn.type targetColumn.type) then
            [typeMismatchError sourceColumn targetColumn]
          else []
        let warnings :=
          (if !targetColumn.primaryKey && !targetColumn.unique then
            [targetNotPrimaryKeyWarning targetColumn]
          else [])
          ++ (if !sourceColumn.primaryKey && !sourceColumn.unique then
            [sourceNoIndexWarning sourceColumn]
          else [])
          ++ (if r.type = RelationType.oneToMany ∨ r.type = RelationType.manyToMany then
                if toLowerStr sourceColumn.name != toLowerStr targetTable.name ++ "_id" then
                  [namingConventionWarning sourceColumn targetTable]
                else []
              else [])
        { valid := errors.length == 0, errors := errors, warnings := warnings }

namespace ValidationEngine

/-- Duplicate-table-name error from `ValidationEngine.validateTables`. -/
def dupTableNameError (t : Table) : ValidationError :=
  { code := "DUPLICATE_TABLE_NAME"
  , message := "Duplicate table name: '" ++ t.name ++ "'"
  , field := some t.id
  , suggestion := some "Rename one of the tables with duplicate names" }

/-- Empty-table-name error. -/
def tableEmptyNameError (t : Table) : ValidationError :=
  { code := "TABLE_EMPTY_NAME"
  , message := "Table has empty name"
  , field := some t.id
  , suggestion := some "Provide a name for the table" }

/-- No-columns error. -/
def tableNoColumnsError (t : Table) : ValidationError :=
  { code := "TABLE_NO_COLUMNS"
  , message := "Table '" ++ t.name ++ "' has no columns"
  , field := some t.id
  , suggestion := some "Add at least one column to the table" }

/-- No-primary-key error. -/
def tableNoPrimaryKeyError (t : Table) : ValidationError :=
  { code := "TABLE_NO_PRIMARY_KEY"
  , message := "Table '" ++ t.name ++ "' has no primary key"
  , field := some t.id
  , suggestion := some "Add a primary key to the table" }

/-- Duplicate-column-name error (same record in both the whole-schema pass and
the single-table entry point). -/
def dupColumnNameError (t : Table) (c : Column) : ValidationError :=
  { code := "DUPLICATE_COLUMN_NAME"
  , message := "Duplicate column name '" ++ c.name ++ "' in table '" ++ t.name ++ "'"
  , field := some c.id
  , suggestion := some "Rename one of the columns with duplicate names" }

/-- Whole-schema-pass empty-column-name error (code `EMPTY_COLUMN_NAME`). -/
def emptyColumnNameError (t : Table) (c : Column) : ValidationError :=
  { code := "EMPTY_COLUMN_NAME"
  , message := "Column in table '" ++ t.name ++ "' has empty name"
  , field := some c.id
  , suggestion := some "Provide a name for the column" }

/-- Whole-schema-pass empty-column-type error (code `EMPTY_COLUMN_TYPE`). -/
def emptyColumnTypeError (t : Table) (c : Column) : ValidationError :=
  { code := "EMPTY_COLUMN_TYPE"
  , message := "Column '" ++ c.name ++ "' in table '" ++ t.name ++ "' has empty type"
  , field := some c.id
  , suggestion := some "Specify a data type for the column" }

/-- Nullable-primary-key error. -/
def primaryKeyNullableError (t : Table) (c : Column) : ValidationError :=
  { code := "PRIMARY_KEY_NULLABLE"
  , message := "Primary key column '" ++ c.name ++ "' in table '" ++ t.name
      ++ "' cannot be nullable"
  , field := some c.id
  , suggestion := some "Set the column as NOT NULL" }

/-- Auto-increment-on-non-numeric-type error. -/
def autoIncrementNonNumericError (t : Table) (c : Column) : ValidationError :=
  { code := "AUTO_INCREMENT_NON_NUMERIC"
  , message := "Auto increment column '" ++ c.name ++ "' in table '" ++ t.name
      ++ "' must be numeric"
  , field := some c.id
  , suggestion := some "Change the column type to a numeric type (INT, BIGINT, etc.)" }

/-- `ValidationEngine.isNumericType`. -/
def isNumericType (type : String) : Bool :=
  numericTypes.contains (normalizeType type)

/-- Per-column loop of `ValidationEngine.validateTables` (duplicate name,
empty name, empty type, nullable primary key, non-numeric auto increment),
threading the case-insensitive seen-name set. -/
def columnChecks (t : Table) : List Column → List String → List ValidationError
  | [], _ => []
  | c :: cs, seen =>
      (if seen.contains (toLowerStr c.name) then [dupColumnNameError t c] else [])
      ++ (if c.name == "" || trimStr c.name == "" then [emptyColumnNameError t c] else [])
      ++ (if c.type == "" || trimStr c.type == "" then [emptyColumnTypeError t c] else [])
      ++ (if c.primaryKey && c.nullable then [primaryKeyNullableError t c] else [])
      ++ (if c.autoIncrement && !(isNumericType c.type) then [autoIncrementNonNumericError t c]
          else [])
      ++ columnChecks t cs (toLowerStr c.name :: seen)

/-- Errors pushed for one table of the whole-schema table pass, given the
case-insensitive set of (lower-cased) table names seen so far. -/
def tableChecks (t : Table) (seenNames : List String) : List ValidationError :=
  (if seenNames.contains (toLowerStr t.name) then [dupTableNameError t] else [])
  ++ (if t.name == "" || trimStr t.name == "" then [tableEmptyNameError t] else [])
  ++ (if t.columns.length == 0 then [tableNoColumnsError t] else [])
  ++ (if t.getPrimaryKeys.length == 0 then [tableNoPrimaryKeyError t] else [])
  ++ columnChecks t t.columns []

/-- The whole-schema table loop, threading the seen-name set. -/
def tablesLoop : List Table → List String → List ValidationError
  | [], _ => []
  | t :: ts, seenNames => tableChecks t seenNames ++ tablesLoop ts (toLowerStr t.name :: seenNames)

/-- `ValidationEngine.validateTables` (the table pass pushes no warnings). -/
def validateTables (s : Schema) : ValidationResult :=
  let errors := tablesLoop s.tables []
  { valid := errors.length == 0, errors := errors, warnings := [] }

/-- `ValidationEngine.validateRelationships`: delegates to
`Relationship.validate` for every relationship, concatenating in order. -/
def validateRelationships (s : Schema) : ValidationResult :=
  let errors := (s.relationships.map (fun r => (r.validate s).errors)).flatten
  let warnings := (s.relationships.map (fun r => (r.validate s).warnings)).flatten
  { valid := errors.length == 0, errors := errors, warnings := warnings }

/-- Resolution of a table id to its name inside the cycle message, with the raw
id as fallback when the table is absent. -/
def resolveTableName (s : Schema) (id : String) : String :=
  match s.getTable id with
  | some t => t.name
  | none => id

/-- The `CIRCULAR_DEPENDENCY` warning built at a revisit: the cycle path is
`path.slice(path.indexOf(tableId))`, each id mapped to its table name, joined
with an arrow. -/
def cycleWarning (s : Schema) (path : List String) (tableId : String) : ValidationWarning :=
  let cyclePath :=
    (path.drop (path.findIdx (fun x => x == tableId))).map (resolveTableName s)
  { code := "CIRCULAR_DEPENDENCY"
  , message := "Circular dependency detected: " ++ String.intercalate " → " cyclePath
  , field := some tableId
  , suggestion := some "Review the relationships to break the circular dependency" }

/-- The recursive `hasCycle` closure of
`ValidationEngine.checkCircularDependencies`.  The shared recursion-stack set
always equals the set of ids on `path` (each frame pushes its id to both and
pops the stack on return), so the stack test is `path.contains`; `visited` and
the warning list are shared, so they are threaded as state.  JS recursion is
unbounded; `fuel` is structural and `checkCircularDependencies` passes more
than any reachable depth. -/
def hasCycle (s : Schema) :
    Nat → String → List String → List String × List ValidationWarning →
    List String × List ValidationWarning
  | 0, _, _, st => st
  | fuel + 1, tableId, path, (visited, warns) =>
    if path.contains tableId then
      (visited, warns ++ [cycleWarning s path tableId])
    else if visited.contains tableId then
      (visited, warns)
    else
      s.relationships.foldl
        (fun st rel =>
          if rel.sourceTableId == tableId then
            hasCycle s fuel rel.targetTableId (path ++ [tableId]) st
          else st)
        (tableId :: visited, warns)

/-- `ValidationEngine.checkCircularDependencies`: depth-first traversal from
every not-yet-visited table; warning-only. -/
def checkCircularDependencies (s : Schema) : ValidationResult :=
  let fuel := s.tables.length + s.relationships.length + 1
  let st := s.tables.foldl
    (fun st t => if st.1.contains t.id then st else hasCycle s fuel t.id [] st)
    ([], [])
  { valid := true, errors := [], warnings := st.2 }

/-- The `ORPHAN_TABLE` warning. -/
def orphanTableWarning (t : Table) : ValidationWarning :=
  { code := "ORPHAN_TABLE"
  , message := "Table '" ++ t.name ++ "' has no relationships with other tables"
  , field := some t.id
  , suggestion := some "Consider adding relationships or removing the table if not needed" }

/-- The connected-table set of `ValidationEngine.checkOrphanTables`: both
endpoints of every relationship. -/
def connectedTables (rels : List Relationship) : List String :=
  rels.foldl (fun acc r => r.targetTableId :: r.sourceTableId :: acc) []

/-- `ValidationEngine.checkOrphanTables`: skipped when the schema has at most
one table; otherwise warns on every table outside the connected set. -/
def checkOrphanTables (s : Schema) : ValidationResult :=
  if s.tables.length ≤ 1 then
    { valid := true, errors := [], warnings := [] }
  else
    let connected := connectedTables s.relationships
    { valid := true
      errors := []
      warnings := (s.tables.filter (fun t => !(connected.contains t.id))).map
        orphanTableWarning }

/-- `ValidationEngine.validateSchema`: table pass, relationship pass, circular
dependencies (warnings only), orphan tables (warnings only). -/
def validateSchema (s : Schema) : ValidationResult :=
  let tableValidation := validateTables s
  let relationshipValidation := validateRelationships s
  let circularValidation := checkCircularDependencies s
  let orphanValidation := checkOrphanTables s
  let errors := tableValidation.errors ++ relationshipValidation.errors
  let warnings := tableValidation.warnings ++ relationshipValidation.warnings
    ++ circularValidation.warnings ++ orphanValidation.warnings
  { valid := errors.length == 0, errors := errors, warnings := warnings }

/-- `TABLE_NOT_FOUND` error of `ValidationEngine.validateTable`. -/
def tableNotFoundError (tableId : String) : ValidationError :=
  { code := "TABLE_NOT_FOUND"
  , message := "Table with ID '" ++ tableId ++ "' not found"
  , field := some tableId
  , suggestion := some "Check if the table exists" }

/-- Single-table-entry-point empty-column-name error (code `COLUMN_EMPTY_NAME`). -/
def columnEmptyNameError (t : Table) (c : Column) : ValidationError :=
  { code := "COLUMN_EMPTY_NAME"
  , message := "Column in table '" ++ t.name ++ "' has empty name"
  , field := some c.id
  , suggestion := some "Provide a name for the column" }

/-- Single-table-entry-point empty-column-type error (code `COLUMN_EMPTY_TYPE`). -/
def columnEmptyTypeError (t : Table) (c : Column) : ValidationError :=
  { code := "COLUMN_EMPTY_TYPE"
  , message := "Column '" ++ c.name ++ "' in table '" ++ t.name ++ "' has empty type"
  , field := some c.id
  , suggestion := some "Specify a data type for the column" }

/-- Per-column loop of `ValidationEngine.validateTable` (duplicate name, empty
name, empty type; no nullable-primary-key or auto-increment check). -/
def singleColumnChecks (t : Table) : List Column → List String → List ValidationError
  | [], _ => []
  | c :: cs, seen =>
      (if seen.contains (toLowerStr c.name) then [dupColumnNameError t c] else [])
      ++ (if c.name == "" || trimStr c.name == "" then [columnEmptyNameError t c] else [])
      ++ (if c.type == "" || trimStr c.type == "" then [columnEmptyTypeError t c] else [])
      ++ singleColumnChecks t cs (toLowerStr c.name :: seen)

/-- `ValidationEngine.validateTable`. -/
def validateTable (s : Schema) (tableId : String) : ValidationResult :=
  match s.getTable tableId with
  | none =>
      { valid := false, errors := [tableNotFoundError tableId], warnings := [] }
  | some t =>
      let errors :=
        (if t.name == "" || trimStr t.name == "" then [tableEmptyNameError t] else [])
        ++ (if t.columns.length == 0 then [tableNoColumnsError t] else [])
        ++ (if t.getPrimaryKeys.length == 0 then [tableNoPrimaryKeyError t] else [])
        ++ singleColumnChecks t t.columns []
      { valid := errors.length == 0, errors := errors, warnings := [] }

/-- `RELATIONSHIP_NOT_FOUND` error of `ValidationEngine.validateRelationship`. -/
def relationshipNotFoundError (relationshipId : String) : ValidationError :=
  { code := "RELATIONSHIP_NOT_FOUND"
  , message := "Relationship with ID '" ++ relationshipId ++ "' not found"
  , field := some relationshipId
  , suggestion := some "Check if the relationship exists" }

/-- `ValidationEngine.validateRelationship`. -/
def validateRelationship (s : Schema) (relationshipId : String) : ValidationResult :=
  match s.getRelationship relationshipId with
  | none =>
      { valid := false, errors := [relationshipNotFoundError relationshipId], warnings := [] }
  | some r => r.validate s

end ValidationEngine

/-! Persisted-state layout (`toJSON` / `fromJSON`).  The JSON objects the
serializers emit are mirrored by records carrying exactly the fields each
`toJSON` writes; `undefined`-able fields are `Option`.  The `||` fallbacks of
the deserializers are kept where they can distinguish values of these shapes
(the schema name, where the empty string is falsy); `json.indexes || []` and
`json.metadata || {}` cannot fire on a value of the mirrored shape (arrays and
objects, even empty, are truthy), so they are plain copies. -/

/-- The object `Column.toJSON` emits. -/
structure ColumnJSON where
  id : String
  name : String
  type : String
  nullable : Bool
  primaryKey : Bool
  foreignKey : Bool
  unique : Bool
  autoIncrement : Bool
  defaultValue : Option String
  comment : Option String
deriving DecidableEq, Repr

/-- `Column.toJSON`. -/
def Column.toJSON (c : Column) : ColumnJSON :=
  { id := c.id, name := c.name, type := c.type, nullable := c.nullable
  , primaryKey := c.primaryKey, foreignKey := c.foreignKey, unique := c.unique
  , autoIncrement := c.autoIncrement, defaultValue := c.defaultValue, comment := c.comment }

/-- `Column.fromJSON` (the `?? true` / `?? false` defaults cannot fire on a
value of `ColumnJSON`, whose boolean fields are always present). -/
def Column.fromJSON (j : ColumnJSON) : Column :=
  { id := j.id, name := j.name, type := j.type, nullable := j.nullable
  , primaryKey := j.primaryKey, foreignKey := j.foreignKey, unique := j.unique
  , autoIncrement := j.autoIncrement, defaultValue := j.defaultValue, comment := j.comment }

/-- The object `Table.toJSON` emits. -/
structure TableJSON where
  id : String
  name : String
  position : Point
  columns : List ColumnJSON
  indexes : List Index
  constraints : List Constraint
  comment : Option String
deriving DecidableEq, Repr

/-- `Table.toJSON`. -/
def Table.toJSON (t : Table) : TableJSON :=
  { id := t.id, name := t.name, position := t.position
  , columns := t.columns.map Column.toJSON
  , indexes := t.indexes, constraints := t.constraints, comment := t.comment }

/-- `Table.addColumn` (array push). -/
def Table.addColumn (t : Table) (c : Column) : Table :=
  { t with columns := t.columns ++ [c] }

/-- `Table.fromJSON`: constructs the table, copies comment/indexes/constraints,
then `addColumn`s each deserialized column in order. -/
def Table.fromJSON (j : TableJSON) : Table :=
  let table : Table :=
    { id := j.id, name := j.name, position := j.position, columns := []
    , indexes := j.indexes, constraints := j.constraints, comment := j.comment }
  j.columns.foldl (fun t cj => t.addColumn (Column.fromJSON cj)) table

/-- The object `Relationship.toJSON` emits. -/
structure RelationshipJSON where
  id : String
  name : Option String
  type : RelationType
  sourceTableId : String
  targetTableId : String
  sourceColumnId : String
  targetColumnId : String
  onDelete : Option ReferentialAction
  onUpdate : Option ReferentialAction
  comment : Option String
deriving DecidableEq, Repr

/-- `Relationship.toJSON`. -/
def Relationship.toJSON (r : Relationship) : RelationshipJSON :=
  { id := r.id, name := r.name, type := r.type
  , sourceTableId := r.sourceTableId, targetTableId := r.targetTableId
  , sourceColumnId := r.sourceColumnId, targetColumnId := r.targetColumnId
  , onDelete := r.onDelete, onUpdate := r.onUpdate, comment := r.comment }

/-- `Relationship.fromJSON`: accepted structurally, whatever ids it references. -/
def Relationship.fromJSON (j : RelationshipJSON) : Relationship :=
  { id := j.id, name := j.name, type := j.type
  , sourceTableId := j.sourceTableId, targetTableId := j.targetTableId
  , sourceColumnId := j.sourceColumnId, targetColumnId := j.targetColumnId
  , onDelete := j.onDelete, onUpdate := j.onUpdate, comment := j.comment }

/-- The object `Schema.toJSON` emits. -/
structure SchemaJSON where
  name : String
  tables : List TableJSON
  relationships : List RelationshipJSON
  metadata : List (String × String)
deriving DecidableEq, Repr

/-- `Schema.toJSON`. -/
def Schema.toJSON (s : Schema) : SchemaJSON :=
  { name := s.name
  , tables := s.tables.map Table.toJSON
  , relationships := s.relationships.map Relationship.toJSON
  , metadata := s.metadata }

/-- `Schema.fromJSON`: fresh schema, `json.name || 'Untitled Schema'`
(the empty string is the one falsy string), then `addTable` / `addRelationship`
over the arrays in order. -/
def Schema.fromJSON (j : SchemaJSON) : Schema :=
  let schema : Schema :=
    { name := if j.name == "" then "Untitled Schema" else j.name
    , tables := [], relationships := [], metadata := j.metadata }
  let schema := j.tables.foldl (fun s tj => s.addTable (Table.fromJSON tj)) schema
  j.relationships.foldl (fun s rj => s.addRelationship (Relationship.fromJSON rj)) schema

/-- The code renaming between the whole-schema table pass and the single-table
entry point: `EMPTY_COLUMN_NAME` / `EMPTY_COLUMN_TYPE` become
`COLUMN_EMPTY_NAME` / `COLUMN_EMPTY_TYPE`; every other code is unchanged. -/
def singleEntryCode (code : String) : String :=
  if code == "EMPTY_COLUMN_NAME" then "COLUMN_EMPTY_NAME"
  else if code == "EMPTY_COLUMN_TYPE" then "COLUMN_EMPTY_TYPE"
  else code

/-! Concrete fixtures used by the witness and counterexample theorems. -/

/-- A primary-key `INT` column that keeps the constructor's `nullable = true`
default (the `Column` constructor never clears `nullable`). -/
def pkNullableColumn : Column :=
  { id := "c1", name := "id", type := "INT", primaryKey := true }

/-- A `users` table whose primary key is still nullable. -/
def usersPkNullableTable : Table :=
  { id := "t1", name := "users", position := { x := 0, y := 0 }, columns := [pkNullableColumn] }

/-- Schema holding just `usersPkNullableTable`. -/
def pkNullableSchema : Schema :=
  { tables := [usersPkNullableTable] }

/-- Table named `Users`, id `t1`, no columns. -/
def usersTable : Table :=
  { id := "t1", name := "Users", position := { x := 0, y := 0 } }

/-- Table named `Posts`, id `t2`, no columns. -/
def postsTable : Table :=
  { id := "t2", name := "Posts", position := { x := 0, y := 0 } }

/-- Relationship `t1 → t2`. -/
def relUsersToPosts : Relationship :=
  { id := "r1", type := RelationType.oneToMany, sourceTableId := "t1", targetTableId := "t2"
  , sourceColumnId := "", targetColumnId := "" }

/-- Relationship `t2 → t1`, closing the cycle. -/
def relPostsToUsers : Relationship :=
  { id := "r2", type := RelationType.oneToMany, sourceTableId := "t2", targetTableId := "t1"
  , sourceColumnId := "", targetColumnId := "" }

/-- Two tables with a two-edge cycle between them. -/
def cycleSchema : Schema :=
  { tables := [usersTable, postsTable], relationships := [relUsersToPosts, relPostsToUsers] }

/-- Source table of the missing-source-column fixture: no columns at all. -/
def emptySourceTable : Table :=
  { id := "a", name := "orders", position := { x := 0, y := 0 } }

/-- An existing target column. -/
def targetIdColumn : Column :=
  { id := "cb", name := "id", type := "INT", primaryKey := true }

/-- Target table of the missing-source-column fixture. -/
def customersTable : Table :=
  { id := "b", name := "customers", position := { x := 0, y := 0 }
  , columns := [targetIdColumn] }

/-- A relationship whose source column id resolves to nothing while the target
column resolves. -/
def danglingSourceColumnRel : Relationship :=
  { id := "r1", type := RelationType.oneToMany, sourceTableId := "a", targetTableId := "b"
  , sourceColumnId := "missing", targetColumnId := "cb" }

/-- Schema for the missing-source-column scenario. -/
def danglingSourceColumnSchema : Schema :=
  { tables := [emptySourceTable, customersTable], relationships := [danglingSourceColumnRel] }

/-- First of the two same-named tables. -/
def usersLowerTable : Table :=
  { id := "u1", name := "users", position := { x := 0, y := 0 } }

/-- Second of the two same-named tables. -/
def usersSecondTable : Table :=
  { id := "u2", name := "users", position := { x := 0, y := 0 } }

/-- Two tables both named `users` (case-insensitively equal names, distinct ids). -/
def twoUsersSchema : Schema :=
  { tables := [usersLowerTable, usersSecondTable] }

/-- A third table connected to nothing. -/
def lonelyTable : Table :=
  { id := "t3", name := "Lonely", position := { x := 0, y := 0 } }

/-- Three tables, only the first two connected by a relationship. -/
def orphanDemoSchema : Schema :=
  { tables := [usersTable, postsTable, lonelyTable], relationships := [relUsersToPosts] }

/-- Each element of a list paired with the list of elements strictly before it
(the accumulator seeds the prefix).  Spec-side vehicle for "seen so far in
iteration order". -/
def withPrefixes {α : Type} (acc : List α) : List α → List (α × List α)
  | [] => []
  | x :: xs => (x, acc) :: withPrefixes (acc ++ [x]) xs

/-- The warning the cycle fixture produces (message text written out). -/
def cycleDemoWarning : ValidationWarning :=
  { code := "CIRCULAR_DEPENDENCY"
  , message := "Circular dependency detected: Users → Posts"
  , field := some "t1"
  , suggestion := some "Review the relationships to break the circular dependency" }

/-- A warning is a cycle warning of the traversal: built by `cycleWarning`
from a duplicate-free recursion-stack `path` revisited at `t ∈ path`. -/
def IsCycleWarning (s : Schema) (w : ValidationWarning) : Prop :=
  ∃ (p : List String) (t : String),
    t ∈ p ∧ p.Nodup ∧ w = ValidationEngine.cycleWarning s p t

/-! Theorems. -/

/-- C8: the type-compatibility check is symmetric: for all type strings `a`
and `b`, `Relationship.areTypesCompatible a b = Relationship.areTypesCompatible b a`
(identical normalized forms, or joint membership in one of the fixed groups). -/
theorem areTypesCompatible_symm (a b : String) :
    Relationship.areTypesCompatible a b = Relationship.areTypesCompatible b a := by
  unfold Relationship.areTypesCompatible
  by_cases h : normalizeType a = normalizeType b
  · simp [h]
  · have h' : ¬ normalizeType b = normalizeType a := fun he => h he.symm
    simp only [beq_iff_eq, h, h', if_false]
    rw [Bool.and_comm (numericTypes.contains (normalizeType a)),
        Bool.and_comm (stringTypes.contains (normalizeType a)),
        Bool.and_comm (dateTypes.contains (normalizeType a))]

/-- C1: every `ValidationResult` returned by `validateSchema`, `validateTable`,
`validateRelationship`, and by `Relationship.validate` (its early-return paths
included) has `valid` equal to `errors.length == 0`; warnings never affect
validity. -/
theorem valid_iff_errors_empty (s : Schema) (tableId relationshipId : String)
    (r : Relationship) :
    ((ValidationEngine.validateSchema s).valid
      = ((ValidationEngine.validateSchema s).errors.length == 0))
    ∧ ((ValidationEngine.validateTable s tableId).valid
      = ((ValidationEngine.validateTable s tableId).errors.length == 0))
    ∧ ((ValidationEngine.validateRelationship s relationshipId).valid
      = ((ValidationEngine.validateRelationship s relationshipId).errors.length == 0))
    ∧ ((r.validate s).valid = ((r.validate s).errors.length == 0)) := by
  have hrel : ∀ rr : Relationship, (rr.validate s).valid
      = ((rr.validate s).errors.length == 0) := by
    intro rr
    unfold Relationship.validate
    rcases s.getTable rr.sourceTableId with _ | st <;>
      rcases s.getTable rr.targetTableId with _ | tt <;> simp
    rcases st.getColumn rr.sourceColumnId with _ | sc <;>
      rcases tt.getColumn rr.targetColumnId with _ | tc <;> simp
  refine ⟨rfl, ?_, ?_, hrel r⟩
  · unfold ValidationEngine.validateTable
    rcases s.getTable tableId with _ | t <;> simp
  · unfold ValidationEngine.validateRelationship
    rcases s.getRelationship relationshipId with _ | rr
    · simp
    · simp [hrel rr]

/-- C2: with both endpoint tables resolved, a missing source column while the
target column resolves makes `Relationship.validate` return immediately with
exactly the single `SOURCE_COLUMN_NOT_FOUND` error (field `sourceColumnId`) and
no warnings, so no type or warning check runs; and when both columns are
missing, the two column-not-found errors appear together (independent checks). -/
theorem validate_missing_source_column_short_circuits
    (s : Schema) (r : Relationship) (st tt : Table)
    (hs : s.getTable r.sourceTableId = some st)
    (ht : s.getTable r.targetTableId = some tt) :
    (∀ tc : Column, st.getColumn r.sourceColumnId = none →
      tt.getColumn r.targetColumnId = some tc →
      r.validate s
        = { valid := false, errors := [sourceColumnNotFoundError r st], warnings := [] })
    ∧ (st.getColumn r.sourceColumnId = none → tt.getColumn r.targetColumnId = none →
      r.validate s
        = { valid := false
          , errors := [sourceColumnNotFoundError r st, targetColumnNotFoundError r tt]
          , warnings := [] })
    ∧ (sourceColumnNotFoundError r st).code = "SOURCE_COLUMN_NOT_FOUND"
    ∧ (sourceColumnNotFoundError r st).field = some "sourceColumnId" := by
  unfold Relationship.validate
  rw [hs, ht]
  refine ⟨?_, ?_, rfl, rfl⟩
  · intro tc h1 h2
    simp [h1, h2]
  · intro h1 h2
    simp [h1, h2]

/-- Witness for C2 at a concrete schema: the relationship whose source column
id is dangling yields exactly the one error and no warnings. -/
theorem validate_missing_source_column_short_circuits_witness :
    danglingSourceColumnRel.validate danglingSourceColumnSchema
      = { valid := false
        , errors := [sourceColumnNotFoundError danglingSourceColumnRel emptySourceTable]
        , warnings := [] } := by
  have h := validate_missing_source_column_short_circuits danglingSourceColumnSchema
    danglingSourceColumnRel emptySourceTable customersTable (by rfl) (by rfl)
  exact h.1 targetIdColumn (by rfl) (by rfl)

/-- Dropping a list at the first index of a member yields that member followed
by a tail; on a duplicate-free list the member does not recur in the tail. -/
lemma drop_findIdx_of_mem {t : String} :
    ∀ {p : List String}, t ∈ p →
      ∃ q, p.drop (p.findIdx (fun x => x == t)) = t :: q ∧ (p.Nodup → t ∉ q) := by
  intro p
  induction p with
  | nil => intro h; cases h
  | cons a p ih =>
    intro h
    by_cases hat : a = t
    · subst hat
      refine ⟨p, ?_, ?_⟩
      · simp [List.findIdx_cons]
      · intro hnd
        exact (List.nodup_cons.mp hnd).1
    · have ht : t ∈ p := by
        rcases List.mem_cons.mp h with h' | h'
        · exact absurd h'.symm hat
        · exact h'
      obtain ⟨q, hq, hnd⟩ := ih ht
      have hbeq : (a == t) = false := by simpa using hat
      have hidx : (a :: p).findIdx (fun x => x == t) = p.findIdx (fun x => x == t) + 1 := by
        simp [List.findIdx_cons, hbeq]
      refine ⟨q, ?_, ?_⟩
      · rw [hidx, List.drop_succ_cons]
        exact hq
      · intro hnodup
        exact hnd (List.nodup_cons.mp hnodup).2

/-- The relationship fold inside `hasCycle` preserves the cycle-warning
invariant, assuming the recursive calls do. -/
lemma hasCycle_foldl_invariant (s : Schema) (fuel : Nat)
    (IH : ∀ (tid : String) (path : List String) (st : List String × List ValidationWarning),
      path.Nodup → (∀ w ∈ st.2, IsCycleWarning s w) →
      ∀ w ∈ (ValidationEngine.hasCycle s fuel tid path st).2, IsCycleWarning s w)
    (path' : List String) (hnd' : path'.Nodup) :
    ∀ (rels : List Relationship) (tid : String)
      (acc : List String × List ValidationWarning),
      (∀ w ∈ acc.2, IsCycleWarning s w) →
      ∀ w ∈ (rels.foldl
          (fun st rel =>
            if rel.sourceTableId == tid then
              ValidationEngine.hasCycle s fuel rel.targetTableId path' st
            else st) acc).2, IsCycleWarning s w := by
  intro rels
  induction rels with
  | nil => intro tid acc hacc; simpa using hacc
  | cons rel rest ihr =>
    intro tid acc hacc
    simp only [List.foldl_cons]
    cases hsrc : rel.sourceTableId == tid
    · simp only [hsrc, Bool.false_eq_true, if_false]
      exact ihr tid acc hacc
    · simp only [hsrc, if_true]
      exact ihr tid _ (IH rel.targetTableId path' acc hnd' hacc)

/-- Every warning `hasCycle` adds is a `cycleWarning` built from a
duplicate-free recursion stack revisited at a member. -/
lemma hasCycle_invariant (s : Schema) :
    ∀ (fuel : Nat) (tid : String) (path : List String)
      (st : List String × List ValidationWarning),
      path.Nodup → (∀ w ∈ st.2, IsCycleWarning s w) →
      ∀ w ∈ (ValidationEngine.hasCycle s fuel tid path st).2, IsCycleWarning s w := by
  intro fuel
  induction fuel with
  | zero =>
    intro tid path st hnd hst w hw
    exact hst w (by simpa [ValidationEngine.hasCycle] using hw)
  | succ fuel ih =>
    intro tid path st hnd hst w hw
    obtain ⟨visited, warns⟩ := st
    rw [ValidationEngine.hasCycle] at hw
    by_cases h1 : path.contains tid = true
    · simp only [h1, if_true] at hw
      rcases List.mem_append.mp hw with hold | hnew
      · exact hst w hold
      · have hmem : tid ∈ path := by simpa using h1
        rcases List.mem_singleton.mp hnew with rfl
        exact ⟨path, tid, hmem, hnd, rfl⟩
    · simp only [h1, if_false] at hw
      by_cases h2 : visited.contains tid = true
      · simp only [h2, if_true] at hw
        exact hst w hw
      · simp only [h2, if_false] at hw
        have hnotmem : tid ∉ path := by
          intro hm
          exact h1 (by simpa using hm)
        have hnd' : (path ++ [tid]).Nodup := by
          simp [List.nodup_append, hnd, hnotmem]
        exact hasCycle_foldl_invariant s fuel ih (path ++ [tid]) hnd'
          s.relationships tid (tid :: visited, warns) hst w hw

/-- Every warning `checkCircularDependencies` emits satisfies the
cycle-warning invariant. -/
lemma checkCircularDependencies_invariant (s : Schema) :
    ∀ w ∈ (ValidationEngine.checkCircularDependencies s).warnings, IsCycleWarning s w := by
  unfold ValidationEngine.checkCircularDependencies
  simp only []
  have aux : ∀ (tables : List Table) (acc : List String × List ValidationWarning),
      (∀ w ∈ acc.2, IsCycleWarning s w) →
      ∀ w ∈ (tables.foldl
          (fun st t =>
            if st.1.contains t.id then st
            else ValidationEngine.hasCycle s
              (s.tables.length + s.relationships.length + 1) t.id [] st) acc).2,
        IsCycleWarning s w := by
    intro tables
    induction tables with
    | nil => intro acc hacc; simpa using hacc
    | cons t rest ihr =>
      intro acc hacc
      simp only [List.foldl_cons]
      by_cases hv : acc.1.contains t.id = true
      · simp only [hv, if_true]
        exact ihr acc hacc
      · simp only [hv, if_false]
        exact ihr _ (hasCycle_invariant s _ t.id [] acc (List.nodup_nil) hacc)
  intro w hw
  exact aux s.tables ([], []) (by intro w hw; cases hw) w hw

/-- C3 (counterexample to the claim as stated): on the two-table cycle the
pass emits exactly one warning, whose message lists the path `Users → Posts`
and does not close the loop by repeating the revisited table
(`Users → Posts → Users`). -/
theorem checkCircularDependencies_message_counterexample :
    (ValidationEngine.checkCircularDependencies cycleSchema).warnings = [cycleDemoWarning]
    ∧ cycleDemoWarning.message = "Circular dependency detected: Users → Posts"
    ∧ "Circular dependency detected: Users → Posts"
        ≠ "Circular dependency detected: Users → Posts → Users" := by
  refine ⟨by decide, rfl, by decide⟩

/-- C3 (amended): every `CIRCULAR_DEPENDENCY` warning the pass emits is built
at a revisit of a table `t` already on the duplicate-free recursion stack `p`,
and its message lists the cycle path as the table names of the stack segment
from the first occurrence of `t` through the end of the stack — starting at
the revisited table and NOT repeating it at the end — with each id resolved to
its table's name by `resolveTableName` (raw-id fallback). -/
theorem checkCircularDependencies_warning_message (s : Schema) (w : ValidationWarning)
    (hw : w ∈ (ValidationEngine.checkCircularDependencies s).warnings) :
    ∃ (p : List String) (t : String) (q : List String),
      t ∈ p ∧ p.Nodup
      ∧ w = ValidationEngine.cycleWarning s p t
      ∧ p.drop (p.findIdx (fun x => x == t)) = t :: q
      ∧ t ∉ q
      ∧ w.code = "CIRCULAR_DEPENDENCY"
      ∧ w.message = "Circular dependency detected: "
          ++ String.intercalate " → "
              ((t :: q).map (ValidationEngine.resolveTableName s)) := by
  obtain ⟨p, t, hmem, hnd, rfl⟩ := checkCircularDependencies_invariant s w hw
  obtain ⟨q, hq, hqt⟩ := drop_findIdx_of_mem hmem
  refine ⟨p, t, q, hmem, hnd, rfl, hq, hqt hnd, rfl, ?_⟩
  simp [ValidationEngine.cycleWarning, hq]

/-- Witness for the amended C3 at the concrete two-table cycle. -/
theorem checkCircularDependencies_warning_message_witness :
    ∃ (p : List String) (t : String) (q : List String),
      t ∈ p ∧ p.Nodup
      ∧ cycleDemoWarning = ValidationEngine.cycleWarning cycleSchema p t
      ∧ p.drop (p.findIdx (fun x => x == t)) = t :: q
      ∧ t ∉ q
      ∧ cycleDemoWarning.code = "CIRCULAR_DEPENDENCY"
      ∧ cycleDemoWarning.message = "Circular dependency detected: "
          ++ String.intercalate " → "
              ((t :: q).map (ValidationEngine.resolveTableName cycleSchema)) :=
  checkCircularDependencies_warning_message cycleSchema cycleDemoWarning (by decide)

/-- The single-table column loop agrees with the whole-schema column loop with
its two extra checks (`PRIMARY_KEY_NULLABLE`, `AUTO_INCREMENT_NON_NUMERIC`)
filtered out and the empty-name/empty-type codes renamed. -/
lemma singleColumnChecks_eq_filtered (t : Table) :
    ∀ (cs : List Column) (seen : List String),
      ValidationEngine.singleColumnChecks t cs seen
        = ((ValidationEngine.columnChecks t cs seen).filter
            (fun e => !(e.code == "PRIMARY_KEY_NULLABLE"
                        || e.code == "AUTO_INCREMENT_NON_NUMERIC"))).map
            (fun e => { e with code := singleEntryCode e.code }) := by
  intro cs
  induction cs with
  | nil =>
    intro seen
    simp [ValidationEngine.singleColumnChecks, ValidationEngine.columnChecks]
  | cons c cs ih =>
    intro seen
    simp only [ValidationEngine.singleColumnChecks, ValidationEngine.columnChecks,
      List.filter_append, List.map_append, ih]
    split_ifs <;>
      simp [ValidationEngine.dupColumnNameError, ValidationEngine.emptyColumnNameError,
        ValidationEngine.emptyColumnTypeError, ValidationEngine.primaryKeyNullableError,
        ValidationEngine.autoIncrementNonNumericError, ValidationEngine.columnEmptyNameError,
        ValidationEngine.columnEmptyTypeError, singleEntryCode]

/-- C4 (corrected): `validateTable` gives `TABLE_NOT_FOUND` when the id does
not resolve; otherwise its errors are exactly the whole-schema table pass run
on a schema holding just that table, with the `PRIMARY_KEY_NULLABLE` and
`AUTO_INCREMENT_NON_NUMERIC` checks dropped (the single-table entry point does
not perform them) and the per-column empty-name/empty-type codes renamed to
`COLUMN_EMPTY_NAME` / `COLUMN_EMPTY_TYPE`; it emits no warnings. -/
theorem validateTable_spec (s : Schema) (tableId : String) :
    (s.getTable tableId = none →
      ValidationEngine.validateTable s tableId
        = { valid := false
          , errors := [ValidationEngine.tableNotFoundError tableId]
          , warnings := [] })
    ∧ (∀ t : Table, s.getTable tableId = some t →
        (ValidationEngine.validateTable s tableId).errors
          = ((ValidationEngine.validateTables { tables := [t] }).errors.filter
              (fun e => !(e.code == "PRIMARY_KEY_NULLABLE"
                          || e.code == "AUTO_INCREMENT_NON_NUMERIC"))).map
              (fun e => { e with code := singleEntryCode e.code })
        ∧ (ValidationEngine.validateTable s tableId).warnings = []) := by
  constructor
  · intro h
    unfold ValidationEngine.validateTable
    rw [h]
  · intro t h
    unfold ValidationEngine.validateTable
    rw [h]
    constructor
    · show (if t.name == "" || trimStr t.name == "" then [ValidationEngine.tableEmptyNameError t]
          else [])
        ++ (if t.columns.length == 0 then [ValidationEngine.tableNoColumnsError t] else [])
        ++ (if t.getPrimaryKeys.length == 0 then [ValidationEngine.tableNoPrimaryKeyError t]
          else [])
        ++ ValidationEngine.singleColumnChecks t t.columns [] = _
      rw [singleColumnChecks_eq_filtered]
      show _ = ((ValidationEngine.tablesLoop [t] []).filter _).map _
      unfold ValidationEngine.tablesLoop ValidationEngine.tableChecks
      simp only [ValidationEngine.tablesLoop, List.contains_nil, Bool.false_eq_true,
        if_false, List.nil_append, List.append_nil, List.filter_append, List.map_append]
      split_ifs <;>
        simp [ValidationEngine.dupTableNameError, ValidationEngine.tableEmptyNameError,
          ValidationEngine.tableNoColumnsError, ValidationEngine.tableNoPrimaryKeyError,
          singleEntryCode]
    · rfl

/-- C4 (counterexample to the claim as stated): a table whose primary-key
column is still nullable: the whole-schema pass reports `PRIMARY_KEY_NULLABLE`,
but `validateTable` on the same table reports nothing at all, so the two entry
points do not check the same conditions. -/
theorem validateTable_missing_checks_counterexample :
    (ValidationEngine.validateTable pkNullableSchema "t1").errors = []
    ∧ (ValidationEngine.validateTable pkNullableSchema "t1").valid = true
    ∧ (ValidationEngine.validateSchema pkNullableSchema).errors
        = [ValidationEngine.primaryKeyNullableError usersPkNullableTable pkNullableColumn]
    ∧ (ValidationEngine.primaryKeyNullableError usersPkNullableTable pkNullableColumn).code
        = "PRIMARY_KEY_NULLABLE" := by
  refine ⟨rfl, rfl, by decide, rfl⟩

/-- Witness for the amended C4 at concrete inputs: the found-table branch on
the nullable-primary-key fixture, and the `TABLE_NOT_FOUND` branch on an
absent id. -/
theorem validateTable_spec_witness :
    ((ValidationEngine.validateTable pkNullableSchema "t1").errors
      = ((ValidationEngine.validateTables { tables := [usersPkNullableTable] }).errors.filter
          (fun e => !(e.code == "PRIMARY_KEY_NULLABLE"
                      || e.code == "AUTO_INCREMENT_NON_NUMERIC"))).map
          (fun e => { e with code := singleEntryCode e.code })
      ∧ (ValidationEngine.validateTable pkNullableSchema "t1").warnings = [])
    ∧ ValidationEngine.validateTable pkNullableSchema "missing"
        = { valid := false
          , errors := [ValidationEngine.tableNotFoundError "missing"]
          , warnings := [] } :=
  ⟨(validateTable_spec pkNullableSchema "t1").2 usersPkNullableTable (by rfl),
   (validateTable_spec pkNullableSchema "missing").1 (by rfl)⟩

/-- The per-column loop never emits a `DUPLICATE_TABLE_NAME` error. -/
lemma columnChecks_filter_dup_table (t : Table) :
    ∀ (cs : List Column) (seen : List String),
      (ValidationEngine.columnChecks t cs seen).filter
          (fun e => e.code == "DUPLICATE_TABLE_NAME") = [] := by
  intro cs
  induction cs with
  | nil => intro seen; simp [ValidationEngine.columnChecks]
  | cons c cs ih =>
    intro seen
    simp only [ValidationEngine.columnChecks, List.filter_append, ih, List.append_nil]
    split_ifs <;>
      simp [ValidationEngine.dupColumnNameError, ValidationEngine.emptyColumnNameError,
        ValidationEngine.emptyColumnTypeError, ValidationEngine.primaryKeyNullableError,
        ValidationEngine.autoIncrementNonNumericError]

/-- The `DUPLICATE_TABLE_NAME` errors of one table's checks: exactly one when
the lower-cased name is in the seen set, none otherwise. -/
lemma tableChecks_filter_dup (t : Table) (seen : List String) :
    (ValidationEngine.tableChecks t seen).filter
        (fun e => e.code == "DUPLICATE_TABLE_NAME")
      = if seen.contains (toLowerStr t.name) then [ValidationEngine.dupTableNameError t]
        else [] := by
  unfold ValidationEngine.tableChecks
  simp only [List.filter_append, columnChecks_filter_dup_table, List.append_nil]
  split_ifs <;>
    simp [ValidationEngine.dupTableNameError, ValidationEngine.tableEmptyNameError,
      ValidationEngine.tableNoColumnsError, ValidationEngine.tableNoPrimaryKeyError]

/-- The duplicate-table-name errors of the table loop are exactly one
`dupTableNameError` per table with a case-insensitively equal-named
predecessor, in iteration order. -/
lemma tablesLoop_filter_dup :
    ∀ (ts : List Table) (acc : List Table) (seen : List String),
      (∀ x, seen.contains x = acc.any (fun u => x == toLowerStr u.name)) →
      (ValidationEngine.tablesLoop ts seen).filter
          (fun e => e.code == "DUPLICATE_TABLE_NAME")
        = ((withPrefixes acc ts).filter
            (fun p => p.2.any (fun u => toLowerStr p.1.name == toLowerStr u.name))).map
            (fun p => ValidationEngine.dupTableNameError p.1) := by
  intro ts
  induction ts with
  | nil => intro acc seen h; simp [ValidationEngine.tablesLoop, withPrefixes]
  | cons t ts ih =>
    intro acc seen h
    have hext : ∀ x, (toLowerStr t.name :: seen).contains x
        = (acc ++ [t]).any (fun u => x == toLowerStr u.name) := by
      intro x
      simp only [List.contains_cons, h x, List.any_append, List.any_cons, List.any_nil,
        Bool.or_false]
      exact Bool.or_comm _ _
    have hcond : seen.contains (toLowerStr t.name)
        = acc.any (fun u => toLowerStr t.name == toLowerStr u.name) := h _
    simp only [ValidationEngine.tablesLoop, withPrefixes, List.filter_append,
      tableChecks_filter_dup, List.filter_cons, ih (acc ++ [t]) _ hext, hcond]
    by_cases hdup : acc.any (fun u => toLowerStr t.name == toLowerStr u.name) = true
    · simp [hdup]
    · simp [hdup]

/-- C5: in the whole-schema table pass, duplicate table names are flagged
case-insensitively against the names seen so far: the emitted
`DUPLICATE_TABLE_NAME` errors are exactly one per table having an earlier
table with the same lower-cased name (the first bearer is never flagged); in
particular two tables both named `users` give exactly one such error,
attributed to the second table. -/
theorem duplicate_table_names_spec (s : Schema) :
    ((ValidationEngine.validateTables s).errors.filter
        (fun e => e.code == "DUPLICATE_TABLE_NAME"))
      = ((withPrefixes [] s.tables).filter
          (fun p => p.2.any (fun u => toLowerStr p.1.name == toLowerStr u.name))).map
          (fun p => ValidationEngine.dupTableNameError p.1)
    ∧ ((ValidationEngine.validateSchema twoUsersSchema).errors.filter
        (fun e => e.code == "DUPLICATE_TABLE_NAME"))
      = [ValidationEngine.dupTableNameError usersSecondTable]
    ∧ (ValidationEngine.dupTableNameError usersSecondTable).field = some "u2" := by
  refine ⟨?_, by decide, rfl⟩
  exact tablesLoop_filter_dup s.tables [] [] (by intro x; simp)

/-- Membership in the connected-table set built by the relationship fold:
an id is in it iff some relationship has it as an endpoint (or it was in the
accumulator already). -/
lemma connectedTables_contains :
    ∀ (rels : List Relationship) (acc : List String) (x : String),
      (rels.foldl (fun acc r => r.targetTableId :: r.sourceTableId :: acc) acc).contains x
        = (acc.contains x
           || rels.any (fun r => x == r.sourceTableId || x == r.targetTableId)) := by
  intro rels
  induction rels with
  | nil => intro acc x; simp
  | cons r rest ih =>
    intro acc x
    simp only [List.foldl_cons, ih, List.contains_cons, List.any_cons]
    cases hx1 : x == r.sourceTableId <;> cases hx2 : x == r.targetTableId <;>
      simp [hx1, hx2]

/-- The warnings of `Relationship.validate` never carry the `ORPHAN_TABLE`
code. -/
lemma validate_warnings_not_orphan (r : Relationship) (s : Schema) :
    ∀ w ∈ (r.validate s).warnings, ¬ w.code = "ORPHAN_TABLE" := by
  unfold Relationship.validate
  split
  · intro w hw; cases hw
  · intro w hw; cases hw
  · intro w hw; cases hw
  · split
    · intro w hw; cases hw
    · intro w hw; cases hw
    · intro w hw; cases hw
    · intro w hw
      simp only [List.mem_append] at hw
      rcases hw with (hw | hw) | hw <;> split_ifs at hw <;>
        simp only [List.mem_singleton, List.not_mem_nil] at hw <;>
        first
          | exact hw.elim
          | (rcases hw with rfl;
             simp [targetNotPrimaryKeyWarning, sourceNoIndexWarning,
               namingConventionWarning])

/-- C6: the orphan pass is skipped for schemas with at most one table (then
`validateSchema` emits no `ORPHAN_TABLE` warning at all); it never produces
errors; and with at least two tables it emits exactly one `ORPHAN_TABLE`
warning per table that is an endpoint of no relationship. -/
theorem orphan_pass_spec (s : Schema) :
    (s.tables.length ≤ 1 →
      (ValidationEngine.validateSchema s).warnings.filter
          (fun w => w.code == "ORPHAN_TABLE") = [])
    ∧ (ValidationEngine.checkOrphanTables s).errors = []
    ∧ (1 < s.tables.length →
        (ValidationEngine.checkOrphanTables s).warnings
          = (s.tables.filter (fun t =>
              !(s.relationships.any (fun r => t.id == r.sourceTableId
                                              || t.id == r.targetTableId)))).map
              ValidationEngine.orphanTableWarning) := by
  refine ⟨?_, ?_, ?_⟩
  · intro hle
    have horfan : (ValidationEngine.checkOrphanTables s).warnings = [] := by
      unfold ValidationEngine.checkOrphanTables
      rw [if_pos hle]
    show ((ValidationEngine.validateTables s).warnings
        ++ (ValidationEngine.validateRelationships s).warnings
        ++ (ValidationEngine.checkCircularDependencies s).warnings
        ++ (ValidationEngine.checkOrphanTables s).warnings).filter
          (fun w => w.code == "ORPHAN_TABLE") = []
    rw [List.filter_eq_nil_iff]
    intro w hw
    simp only [List.mem_append] at hw
    rcases hw with ((hw | hw) | hw) | hw
    · cases hw
    · have : ∀ w ∈ (ValidationEngine.validateRelationships s).warnings,
          ¬ w.code = "ORPHAN_TABLE" := by
        unfold ValidationEngine.validateRelationships
        intro w hw
        simp only [List.mem_flatten, List.mem_map] at hw
        obtain ⟨ws, ⟨r, _, rfl⟩, hmem⟩ := hw
        exact validate_warnings_not_orphan r s w hmem
      simpa using this w hw
    · obtain ⟨p, t, _, _, rfl⟩ := checkCircularDependencies_invariant s w hw
      simp [ValidationEngine.cycleWarning]
    · rw [horfan] at hw
      cases hw
  · unfold ValidationEngine.checkOrphanTables
    split_ifs <;> rfl
  · intro hgt
    unfold ValidationEngine.checkOrphanTables
    rw [if_neg (by omega)]
    simp only [ValidationEngine.connectedTables]
    congr 1
    apply List.filter_congr
    intro t _
    rw [connectedTables_contains s.relationships [] t.id]
    simp

/-- Witness for C6: the one-table fixture yields no `ORPHAN_TABLE` warning,
and on three tables with a single relationship the pass warns exactly on the
unconnected one. -/
theorem orphan_pass_spec_witness :
    ((ValidationEngine.validateSchema pkNullableSchema).warnings.filter
        (fun w => w.code == "ORPHAN_TABLE") = [])
    ∧ (ValidationEngine.checkOrphanTables orphanDemoSchema).warnings
        = (orphanDemoSchema.tables.filter (fun t =>
            !(orphanDemoSchema.relationships.any
              (fun r => t.id == r.sourceTableId || t.id == r.targetTableId)))).map
            ValidationEngine.orphanTableWarning :=
  ⟨(orphan_pass_spec pkNullableSchema).1 (by decide),
   (orphan_pass_spec orphanDemoSchema).2.2 (by decide)⟩

/-- Column serialization round-trips exactly. -/
lemma columnJSON_roundtrip (c : Column) : Column.fromJSON (Column.toJSON c) = c := rfl

/-- Folding `addColumn` over deserialized serialized columns appends them. -/
lemma foldl_addColumn_map :
    ∀ (cols : List Column) (t : Table),
      (cols.map Column.toJSON).foldl (fun t cj => t.addColumn (Column.fromJSON cj)) t
        = { t with columns := t.columns ++ cols } := by
  intro cols
  induction cols with
  | nil => intro t; simp
  | cons c cs ih =>
    intro t
    simp only [List.map_cons, List.foldl_cons, ih]
    simp [Table.addColumn, columnJSON_roundtrip]

/-- Table serialization round-trips exactly. -/
lemma tableJSON_roundtrip (t : Table) : Table.fromJSON (Table.toJSON t) = t := by
  unfold Table.fromJSON Table.toJSON
  rw [foldl_addColumn_map]
  simp

/-- Folding JS `Map.set` over entries whose keys are fresh and pairwise
distinct appends them in order. -/
lemma foldl_setByKey_of_nodup {α : Type} (key : α → String) :
    ∀ (l : List α) (acc : List α),
      ((acc ++ l).map key).Nodup →
      l.foldl (setByKey key) acc = acc ++ l := by
  intro l
  induction l with
  | nil => intro acc _; simp
  | cons a l ih =>
    intro acc hnd
    have hnotin : ¬ acc.any (fun x => key x == key a) = true := by
      intro hany
      rw [List.any_eq_true] at hany
      obtain ⟨x, hx, hkey⟩ := hany
      have h1 : key a ∈ acc.map key :=
        List.mem_map.mpr ⟨x, hx, (beq_iff_eq.mp hkey)⟩
      have h2 := hnd
      rw [List.map_append, List.nodup_append] at h2
      exact h2.2.2 h1 (by simp)
    have hset : setByKey key acc a = acc ++ [a] := by
      unfold setByKey
      rw [if_neg hnotin]
    have hnd' : (((acc ++ [a]) ++ l).map key).Nodup := by
      rw [List.append_assoc]
      exact hnd
    calc (a :: l).foldl (setByKey key) acc
        = l.foldl (setByKey key) (acc ++ [a]) := by rw [List.foldl_cons, hset]
      _ = (acc ++ [a]) ++ l := ih (acc ++ [a]) hnd'
      _ = acc ++ a :: l := by simp

/-- `validateSchema` reads only the table and relationship components: the
schema name and metadata are never consulted. -/
lemma hasCycle_components (n₁ n₂ : String) (T : List Table)
    (R : List Relationship) (m₁ m₂ : List (String × String)) :
    ∀ (fuel : Nat) (tid : String) (path : List String)
      (st : List String × List ValidationWarning),
      ValidationEngine.hasCycle ⟨n₁, T, R, m₁⟩ fuel tid path st
        = ValidationEngine.hasCycle ⟨n₂, T, R, m₂⟩ fuel tid path st := by
  intro fuel
  induction fuel with
  | zero => intro tid path st; rfl
  | succ fuel ih =>
    intro tid path st
    obtain ⟨visited, warns⟩ := st
    rw [ValidationEngine.hasCycle, ValidationEngine.hasCycle]
    have hcw : ∀ (p : List String) (t : String),
        ValidationEngine.cycleWarning ⟨n₁, T, R, m₁⟩ p t
          = ValidationEngine.cycleWarning ⟨n₂, T, R, m₂⟩ p t := fun _ _ => rfl
    simp only [ih, hcw]

/-- `validateSchema` reads only the table and relationship components: the
schema name and metadata are never consulted. -/
lemma validateSchema_components (n₁ n₂ : String) (T : List Table)
    (R : List Relationship) (m₁ m₂ : List (String × String)) :
    ValidationEngine.validateSchema ⟨n₁, T, R, m₁⟩
      = ValidationEngine.validateSchema ⟨n₂, T, R, m₂⟩ := by
  have hc : ValidationEngine.checkCircularDependencies ⟨n₁, T, R, m₁⟩
      = ValidationEngine.checkCircularDependencies ⟨n₂, T, R, m₂⟩ := by
    unfold ValidationEngine.checkCircularDependencies
    simp only [hasCycle_components n₁ n₂ T R m₁ m₂]
  unfold ValidationEngine.validateSchema
  rw [hc]
  rfl

/-- C7: for every schema satisfying the `Map` key invariant (pairwise-distinct
table and relationship ids), deserializing its serialization yields a schema
with an identical whole-schema validation result (same `valid`, same ordered
errors, same ordered warnings) — with no structural-validity requirement on
the relationships, which may dangle. -/
theorem validateSchema_roundtrip (s : Schema)
    (ht : (s.tables.map Table.id).Nodup)
    (hr : (s.relationships.map Relationship.id).Nodup) :
    ValidationEngine.validateSchema (Schema.fromJSON (Schema.toJSON s))
      = ValidationEngine.validateSchema s := by
  obtain ⟨n, T, R, m⟩ := s
  unfold Schema.toJSON Schema.fromJSON
  dsimp only at ht hr ⊢
  have htab : ∀ (tjs : List TableJSON) (sc : Schema),
      tjs.foldl (fun s tj => s.addTable (Table.fromJSON tj)) sc
        = { sc with tables := (tjs.map Table.fromJSON).foldl (setByKey Table.id) sc.tables } := by
    intro tjs
    induction tjs with
    | nil => intro sc; simp
    | cons tj tjs ih =>
      intro sc
      rw [List.foldl_cons, ih]
      simp [Schema.addTable]
  have hrel : ∀ (rjs : List RelationshipJSON) (sc : Schema),
      rjs.foldl (fun s rj => s.addRelationship (Relationship.fromJSON rj)) sc
        = { sc with relationships :=
            ((rjs.map Relationship.fromJSON).foldl (setByKey Relationship.id)
              sc.relationships) } := by
    intro rjs
    induction rjs with
    | nil => intro sc; simp
    | cons rj rjs ih =>
      intro sc
      rw [List.foldl_cons, ih]
      simp [Schema.addRelationship]
  rw [htab, hrel]
  have hTmap : (T.map Table.toJSON).map Table.fromJSON = T := by
    rw [List.map_map]
    have : (Table.fromJSON ∘ Table.toJSON) = id := by
      funext t
      exact tableJSON_roundtrip t
    rw [this, List.map_id]
  have hRmap : (R.map Relationship.toJSON).map Relationship.fromJSON = R := by
    rw [List.map_map]
    have : (Relationship.fromJSON ∘ Relationship.toJSON) = id := rfl
    rw [this, List.map_id]
  rw [hTmap, hRmap]
  rw [foldl_setByKey_of_nodup Table.id T [] (by simpa using ht)]
  rw [foldl_setByKey_of_nodup Relationship.id R [] (by simpa using hr)]
  simp only [List.nil_append]
  exact validateSchema_components _ n T R _ m

/-- Witness for C7: the cycle fixture (whose relationships dangle at missing
column ids) validates identically after a serialization round-trip. -/
theorem validateSchema_roundtrip_witness :
    ValidationEngine.validateSchema (Schema.fromJSON (Schema.toJSON cycleSchema))
      = ValidationEngine.validateSchema cycleSchema :=
  validateSchema_roundtrip cycleSchema (by decide) (by decide)

/-- On a list with pairwise-distinct keys, `Map.delete` is the filter that
drops the keyed entry. -/
lemma eraseByKey_eq_filter {α : Type} (key : α → String) :
    ∀ (l : List α) (k : String), (l.map key).Nodup →
      eraseByKey key l k = l.filter (fun x => !(key x == k)) := by
  intro l
  induction l with
  | nil => intro k _; rfl
  | cons x xs ih =>
    intro k hnd
    rw [List.map_cons, List.nodup_cons] at hnd
    simp only [eraseByKey, List.filter_cons]
    by_cases hx : (key x == k) = true
    · rw [if_pos hx]
      have hall : ∀ y ∈ xs, (!(key y == k)) = true := by
        intro y hy
        have : ¬ key y = k := by
          intro he
          apply hnd.1
          rw [beq_iff_eq.mp hx, ← he]
          exact List.mem_map_of_mem key hy
        simpa using this
      simp only [hx, Bool.not_true, Bool.false_eq_true, if_false]
      exact (List.filter_eq_self.mpr hall).symm
    · rw [if_neg hx]
      simp only [hx, Bool.not_false, if_true]
      rw [ih k hnd.2]

/-- `Map.delete` with a key no entry bears leaves the list unchanged. -/
lemma eraseByKey_eq_self {α : Type} (key : α → String) :
    ∀ (l : List α) (k : String), (∀ x ∈ l, ¬ key x = k) →
      eraseByKey key l k = l := by
  intro l
  induction l with
  | nil => intro k _; rfl
  | cons x xs ih =>
    intro k h
    simp only [eraseByKey]
    rw [if_neg (by simpa using h x (by simp)), ih k (fun y hy => h y (by simp [hy]))]

/-- Sequential deletes of keys none of which is the head's key commute with
the head. -/
lemma foldl_eraseByKey_cons {α : Type} (key : α → String) :
    ∀ (ks : List String) (x : α) (l : List α), key x ∉ ks →
      ks.foldl (fun acc k => eraseByKey key acc k) (x :: l)
        = x :: ks.foldl (fun acc k => eraseByKey key acc k) l := by
  intro ks
  induction ks with
  | nil => intro x l _; rfl
  | cons k ks ih =>
    intro x l hk
    simp only [List.foldl_cons, eraseByKey]
    rw [if_neg (by simpa using fun he => hk (by simp [he]))]
    exact ih x (eraseByKey key l k) (fun hm => hk (by simp [hm]))

/-- Deleting, one by one, the ids of exactly the entries satisfying `p` from a
list with pairwise-distinct keys is the filter keeping the entries that do not
satisfy `p` (the two-phase collect-then-delete loop of `removeTable`). -/
lemma foldl_eraseByKey_filter {α : Type} (key : α → String) (p : α → Bool) :
    ∀ (l : List α), (l.map key).Nodup →
      ((l.filter p).map key).foldl (fun acc k => eraseByKey key acc k) l
        = l.filter (fun x => !(p x)) := by
  intro l
  induction l with
  | nil => intro _; rfl
  | cons x xs ih =>
    intro hnd
    rw [List.map_cons, List.nodup_cons] at hnd
    by_cases hp : p x = true
    · simp only [List.filter_cons, hp, if_true, List.map_cons, List.foldl_cons]
      have hdel : eraseByKey key (x :: xs) (key x) = xs := by
        simp [eraseByKey]
      rw [hdel, ih hnd.2]
      simp [hp]
    · simp only [List.filter_cons, hp]
      have hnotin : key x ∉ ((xs.filter p).map key) := by
        intro hm
        rcases List.mem_map.mp hm with ⟨y, hy, hkey⟩
        exact hnd.1 (hkey ▸ List.mem_map_of_mem key (List.mem_of_mem_filter hy))
      rw [if_neg (by simp [hp])]
      rw [foldl_eraseByKey_cons key _ x xs hnotin, ih hnd.2]
      simp [hp]

/-- C9: under the `Map` key invariant, `removeTable id` keeps exactly the
tables with a different id (removing the one bearing `id` when present) and
exactly the relationships having `id` as neither source nor target endpoint,
all in their original order. -/
theorem removeTable_cascade (s : Schema) (id : String)
    (ht : (s.tables.map Table.id).Nodup)
    (hr : (s.relationships.map Relationship.id).Nodup) :
    (s.removeTable id).tables = s.tables.filter (fun t => !(t.id == id))
    ∧ (s.removeTable id).relationships
        = s.relationships.filter
            (fun r => !(r.sourceTableId == id || r.targetTableId == id)) := by
  unfold Schema.removeTable
  exact ⟨eraseByKey_eq_filter Table.id s.tables id ht,
    foldl_eraseByKey_filter Relationship.id
      (fun r => r.sourceTableId == id || r.targetTableId == id) s.relationships hr⟩

/-- Witness for C9: removing table `t1` from the cycle fixture removes it and
both relationships touching it. -/
theorem removeTable_cascade_witness :
    (cycleSchema.removeTable "t1").tables
        = cycleSchema.tables.filter (fun t => !(t.id == "t1"))
    ∧ (cycleSchema.removeTable "t1").relationships
        = cycleSchema.relationships.filter
            (fun r => !(r.sourceTableId == "t1" || r.targetTableId == "t1")) :=
  removeTable_cascade cycleSchema "t1" (by decide) (by decide)

/-- C10: `removeTable` with an id no table bears leaves the tables unchanged
but still deletes every relationship whose source or target is that id
(cleaning up dangling relationships). -/
theorem removeTable_absent_id (s : Schema) (id : String)
    (h : s.getTable id = none)
    (hr : (s.relationships.map Relationship.id).Nodup) :
    (s.removeTable id).tables = s.tables
    ∧ (s.removeTable id).relationships
        = s.relationships.filter
            (fun r => !(r.sourceTableId == id || r.targetTableId == id)) := by
  unfold Schema.removeTable
  constructor
  · apply eraseByKey_eq_self
    intro t hmem heq
    have := List.find?_eq_none.mp h t hmem
    simp [heq] at this
  · exact foldl_eraseByKey_filter Relationship.id
      (fun r => r.sourceTableId == id || r.targetTableId == id) s.relationships hr

/-- Witness for C10: the cycle fixture holds no table with id `zz`, yet
`removeTable "zz"` still filters the relationship list (vacuously here) and
leaves the tables alone. -/
theorem removeTable_absent_id_witness :
    (cycleSchema.removeTable "zz").tables = cycleSchema.tables
    ∧ (cycleSchema.removeTable "zz").relationships
        = cycleSchema.relationships.filter
            (fun r => !(r.sourceTableId == "zz" || r.targetTableId == "zz")) :=
  removeTable_absent_id cycleSchema "zz" (by decide) (by decide)

end DbDesigner
